import Mathlib

/-!
Verification of the core module `pdf_stego.py` of the PDF steganography tool.

Byte strings are modelled as `List Nat` (each element a byte value).
File names are modelled by their UTF-8 byte sequences: `encode('utf-8')` in
`hide_file` turns the basename string into exactly those bytes, and the
`decode('utf-8')` calls of `extract_file` and `get_hidden_file_info` are
modelled as a strict UTF-8 validity check (`isValidUtf8`, raising
UnicodeDecodeError on failure, placed where the source decodes) followed by
the identity on the byte sequence.

File-system interaction is modelled explicitly: each operation receives the
byte content of the file it would read together with a flag saying whether the
path exists, and `extract_file` receives the list of file names already present
in the output directory.  An operation that would write a file returns the
written bytes in its result; a failing operation returns its error, so `none`
/ `.error` results correspond exactly to the source's "no output written"
paths (in `hide_file` and `extract_file` the single `open(..., 'wb')` call
occurs only after every possible raise).

The bodies of the four public operations (`hide_file`, `extract_file`,
`check_hidden_data`, `get_hidden_file_info`) are each modelled as an
`Except PyErr _` computation mirroring the `try:` block statement by
statement; the public operation itself is the `except Exception:` wrapper
that converts any error into the operation's failure value.
-/

namespace PDFStego

/-- Bytes of the ASCII text `%PDF-`, the header required by `validate_pdf`. -/
def PDF_HEADER : List Nat := [37, 80, 68, 70, 45]

/-- Bytes of the ASCII text `%%EOF`, the insertion anchor used by `hide_file`. -/
def EOF_MARKER : List Nat := [37, 37, 69, 79, 70]

/-- Bytes of `<<HIDDEN_DATA_START>>` (class attribute `MARKER`). -/
def MARKER : List Nat :=
  [60, 60, 72, 73, 68, 68, 69, 78, 95, 68, 65, 84, 65, 95, 83, 84, 65, 82, 84, 62, 62]

/-- Bytes of `<<HIDDEN_DATA_END>>` (class attribute `MARKER_END`). -/
def MARKER_END : List Nat :=
  [60, 60, 72, 73, 68, 68, 69, 78, 95, 68, 65, 84, 65, 95, 69, 78, 68, 62, 62]

/-- The allow-list `SUPPORTED_FORMATS = ['.txt', '.jpg', '.png', '.pdf', '.docx', '.exe']`,
each extension given by its byte sequence. -/
def SUPPORTED_FORMATS : List (List Nat) :=
  [[46, 116, 120, 116], [46, 106, 112, 103], [46, 112, 110, 103],
   [46, 112, 100, 102], [46, 100, 111, 99, 120], [46, 101, 120, 101]]

/-- The error kinds that the `try:` bodies of the source can raise
(`FileNotFoundError`, the several `ValueError`s, `struct.error`, and
`UnicodeDecodeError`). -/
inductive PyErr where
  | fileNotFound
  | notAValidPdf
  | unsupportedFormat
  | eofNotFound
  | noHiddenData
  | structError
  | dataCorruption
  | unicodeDecodeError
deriving DecidableEq, Repr

deriving instance DecidableEq for Except

/-- Python `haystack.find(sub)`: the lowest index at which `sub` occurs, `none`
for Python's `-1`. -/
def findSub : List Nat → List Nat → Option Nat
  | [], sub => if sub.isPrefixOf ([] : List Nat) then some 0 else none
  | a :: t, sub =>
    if sub.isPrefixOf (a :: t) then some 0 else (findSub t sub).map (· + 1)

/-- Python `haystack.rfind(sub)`: the highest index at which `sub` occurs,
`none` for Python's `-1`. -/
def rfindSub : List Nat → List Nat → Option Nat
  | [], sub => if sub.isPrefixOf ([] : List Nat) then some 0 else none
  | a :: t, sub =>
    match rfindSub t sub with
    | some i => some (i + 1)
    | none => if sub.isPrefixOf (a :: t) then some 0 else none

/-- Python `haystack in sub` test (the `in` operator on bytes). -/
def containsSub (hay sub : List Nat) : Bool := (findSub hay sub).isSome

/-- Python slice `l[a:b]` for non-negative bounds (empty when `b ≤ a`). -/
def pySlice (l : List Nat) (a b : Nat) : List Nat := (l.take b).drop a

/-- The four little-endian bytes of `struct.pack('<I', n)` (value part). -/
def pack4b (n : Nat) : List Nat :=
  [n % 256, n / 256 % 256, n / 65536 % 256, n / 16777216 % 256]

/-- `struct.pack('<I', n)`: raises `struct.error` when `n` does not fit in
32 bits. -/
def pack4 (n : Nat) : Except PyErr (List Nat) :=
  if n < 4294967296 then .ok (pack4b n) else .error .structError

/-- `struct.unpack('<I', bs)[0]`: raises `struct.error` unless `bs` is exactly
4 bytes. -/
def unpack4 : List Nat → Except PyErr Nat
  | [a, b, c, d] => .ok (a + 256 * b + 65536 * c + 16777216 * d)
  | _ => .error .structError

/-- ASCII lower-casing of one byte, as `str.lower` acts on ASCII letters. -/
def lowerByte (b : Nat) : Nat := if 65 ≤ b ∧ b ≤ 90 then b + 32 else b

/-- `str.lower` on a byte sequence (ASCII letters lowered, others kept). -/
def lowerBytes (l : List Nat) : List Nat := l.map lowerByte

/-- UTF-8 continuation byte test (`0x80`-`0xBF`). -/
def utf8Cont (b : Nat) : Bool := 128 ≤ b && b ≤ 191

/-- Strict UTF-8 validity, exactly the byte sequences CPython's
`bytes.decode('utf-8')` accepts (RFC 3629: no overlong forms, no surrogates,
nothing above U+10FFFF): one-byte `00`-`7F`; `C2`-`DF` plus one continuation;
`E0 A0-BF`, `E1`-`EC`, `ED 80-9F`, `EE`-`EF` plus continuations; `F0 90-BF`,
`F1`-`F3`, `F4 80-8F` plus continuations. -/
def isValidUtf8 : List Nat → Bool
  | [] => true
  | b :: rest =>
    if b ≤ 127 then isValidUtf8 rest
    else if 194 ≤ b ∧ b ≤ 223 then
      match rest with
      | c1 :: rest2 => utf8Cont c1 && isValidUtf8 rest2
      | [] => false
    else if b = 224 then
      match rest with
      | c1 :: c2 :: rest2 =>
        (160 ≤ c1 && c1 ≤ 191) && utf8Cont c2 && isValidUtf8 rest2
      | _ => false
    else if 225 ≤ b ∧ b ≤ 236 then
      match rest with
      | c1 :: c2 :: rest2 => utf8Cont c1 && utf8Cont c2 && isValidUtf8 rest2
      | _ => false
    else if b = 237 then
      match rest with
      | c1 :: c2 :: rest2 =>
        (128 ≤ c1 && c1 ≤ 159) && utf8Cont c2 && isValidUtf8 rest2
      | _ => false
    else if 238 ≤ b ∧ b ≤ 239 then
      match rest with
      | c1 :: c2 :: rest2 => utf8Cont c1 && utf8Cont c2 && isValidUtf8 rest2
      | _ => false
    else if b = 240 then
      match rest with
      | c1 :: c2 :: c3 :: rest2 =>
        (144 ≤ c1 && c1 ≤ 191) && utf8Cont c2 && utf8Cont c3 && isValidUtf8 rest2
      | _ => false
    else if 241 ≤ b ∧ b ≤ 243 then
      match rest with
      | c1 :: c2 :: c3 :: rest2 =>
        utf8Cont c1 && utf8Cont c2 && utf8Cont c3 && isValidUtf8 rest2
      | _ => false
    else if b = 244 then
      match rest with
      | c1 :: c2 :: c3 :: rest2 =>
        (128 ≤ c1 && c1 ≤ 143) && utf8Cont c2 && utf8Cont c3 && isValidUtf8 rest2
      | _ => false
    else false

/-- The split position used by `os.path.splitext` on a base name: the last
dot, provided some earlier character is not a dot (leading dots never start
an extension). -/
def splitextPos (p : List Nat) : Option Nat :=
  match rfindSub p [46] with
  | none => none
  | some d => if (p.take d).any (fun c => c != 46) then some d else none

/-- `os.path.splitext(p)[0]` on a base name. -/
def sxBase (p : List Nat) : List Nat :=
  match splitextPos p with
  | some d => p.take d
  | none => p

/-- `os.path.splitext(p)[1]` on a base name. -/
def sxExt (p : List Nat) : List Nat :=
  match splitextPos p with
  | some d => p.drop d
  | none => []

/-- `validate_pdf`: the path must exist and the first five bytes must be
`%PDF-`. -/
def validate_pdf (pdfExists : Bool) (content : List Nat) : Except PyErr Unit :=
  if pdfExists = false then .error .fileNotFound
  else if content.take 5 = PDF_HEADER then .ok () else .error .notAValidPdf

/-- `validate_file_format`: the lower-cased extension of the payload name must
be in the allow-list. -/
def validate_file_format (name : List Nat) : Except PyErr Unit :=
  if lowerBytes (sxExt name) ∈ SUPPORTED_FORMATS then .ok () else .error .unsupportedFormat

/-- The hidden-data package
`[filename_length(4)][filename][data_length(4)][data]` built by `hide_file`. -/
def packageOf (name data : List Nat) : List Nat :=
  pack4b name.length ++ name ++ pack4b data.length ++ data

/-- The bytes `hide_file` writes when the last `%%EOF` occurrence is at
index `i`: the carrier up to and including that occurrence, a newline,
`MARKER`, the package, `MARKER_END`, and a final newline. -/
def embedOutput (pdf : List Nat) (i : Nat) (name data : List Nat) : List Nat :=
  pdf.take (i + 5) ++ [10] ++ MARKER ++ packageOf name data ++ MARKER_END ++ [10]

/-- The `try:` body of `hide_file`, step by step in source order. -/
def hide_body (pdfExists : Bool) (pdf : List Nat) (payloadExists : Bool)
    (payload name : List Nat) : Except PyErr (List Nat) :=
  match validate_pdf pdfExists pdf with
  | .error er => .error er
  | .ok _ =>
    match validate_file_format name with
    | .error er => .error er
    | .ok _ =>
      if payloadExists = false then .error .fileNotFound
      else
        match pack4 name.length, pack4 payload.length with
        | .error er, _ => .error er
        | .ok _, .error er => .error er
        | .ok _, .ok _ =>
          match rfindSub pdf EOF_MARKER with
          | none => .error .eofNotFound
          | some i => .ok (embedOutput pdf i name payload)

/-- Public `hide_file`: the `except` wrapper turns any raised error into
`False` (here `none`); `some out` means success with output bytes `out`
written to the output path. -/
def hide_file (pdfExists : Bool) (pdf : List Nat) (payloadExists : Bool)
    (payload name : List Nat) : Option (List Nat) :=
  (hide_body pdfExists pdf payloadExists payload name).toOption

/-- Decimal digit bytes of a counter value, helper for the duplicate-name
loop (`f-string` rendering of the counter). -/
def natDecimalAux : Nat → Nat → List Nat
  | 0, _ => []
  | f + 1, n => if n < 10 then [48 + n] else natDecimalAux f (n / 10) ++ [48 + n % 10]

/-- Decimal byte rendering of a natural number. -/
def natDecimalBytes (n : Nat) : List Nat := natDecimalAux (n + 1) n

/-- The `while os.path.exists(output_path):` loop of `extract_file`: while the
current candidate collides, the next candidate is
`base ++ "_" ++ counter ++ ext`.  The fuel argument only bounds the
modelled recursion; `extract_file` supplies enough fuel for the loop to stop
exactly at the first free name. -/
def resolveLoop (existing : List (List Nat)) (base ext : List Nat) :
    Nat → List Nat → Nat → List Nat
  | _, current, 0 => current
  | counter, current, fuel + 1 =>
    if current ∈ existing then
      resolveLoop existing base ext (counter + 1)
        (base ++ [95] ++ natDecimalBytes counter ++ ext) fuel
    else current

/-- The duplicate-name handling of `extract_file`: starting from `filename`,
append `_1`, `_2`, … before the extension until the name is not in
`existing`. -/
def resolve_output_name (existing : List (List Nat)) (filename : List Nat) : List Nat :=
  resolveLoop existing (sxBase filename) (sxExt filename) 1 filename (existing.length + 1)

/-- The `try:` body of `extract_file`.  The result pair is the resolved output
file name (its UTF-8 bytes; the source decodes them, modelled as the validity
check plus identity) and the bytes written to it. -/
def extract_body (pdfExists : Bool) (content : List Nat)
    (existing : List (List Nat)) : Except PyErr (List Nat × List Nat) :=
  match validate_pdf pdfExists content with
  | .error er => .error er
  | .ok _ =>
    match findSub content MARKER, findSub content MARKER_END with
    | some s, some e =>
      match unpack4 (pySlice (pySlice content (s + MARKER.length) e) 0 4) with
      | .error er => .error er
      | .ok flen =>
        if isValidUtf8 (pySlice (pySlice content (s + MARKER.length) e)
            4 (4 + flen)) = false then .error .unicodeDecodeError
        else
        match unpack4 (pySlice (pySlice content (s + MARKER.length) e)
            (4 + flen) (4 + flen + 4)) with
        | .error er => .error er
        | .ok dlen =>
          if (pySlice (pySlice content (s + MARKER.length) e)
              (4 + flen + 4) (4 + flen + 4 + dlen)).length = dlen then
            .ok (resolve_output_name existing
                   (pySlice (pySlice content (s + MARKER.length) e) 4 (4 + flen)),
                 pySlice (pySlice content (s + MARKER.length) e)
                   (4 + flen + 4) (4 + flen + 4 + dlen))
          else .error .dataCorruption
    | _, _ => .error .noHiddenData

/-- Public `extract_file`: any raised error becomes `None`. -/
def extract_file (pdfExists : Bool) (content : List Nat)
    (existing : List (List Nat)) : Option (List Nat × List Nat) :=
  (extract_body pdfExists content existing).toOption

/-- The `try:` body of `check_hidden_data`. -/
def check_body (pdfExists : Bool) (content : List Nat) : Except PyErr Bool :=
  match validate_pdf pdfExists content with
  | .error er => .error er
  | .ok _ => .ok (containsSub content MARKER && containsSub content MARKER_END)

/-- Public `check_hidden_data`: any raised error becomes `False`. -/
def check_hidden_data (pdfExists : Bool) (content : List Nat) : Bool :=
  match check_body pdfExists content with
  | .ok b => b
  | .error _ => false

/-- The `try:` body of `get_hidden_file_info`; `.ok none` is the explicit
`return None` when a marker is missing. -/
def info_body (pdfExists : Bool) (content : List Nat) :
    Except PyErr (Option (List Nat × Nat)) :=
  match validate_pdf pdfExists content with
  | .error er => .error er
  | .ok _ =>
    match findSub content MARKER, findSub content MARKER_END with
    | some s, some e =>
      match unpack4 (pySlice (pySlice content (s + MARKER.length) e) 0 4) with
      | .error er => .error er
      | .ok flen =>
        if isValidUtf8 (pySlice (pySlice content (s + MARKER.length) e)
            4 (4 + flen)) = false then .error .unicodeDecodeError
        else
        match unpack4 (pySlice (pySlice content (s + MARKER.length) e)
            (4 + flen) (4 + flen + 4)) with
        | .error er => .error er
        | .ok dlen =>
          .ok (some (pySlice (pySlice content (s + MARKER.length) e) 4 (4 + flen), dlen))
    | _, _ => .ok none

/-- Public `get_hidden_file_info`: any raised error becomes `None`. -/
def get_hidden_file_info (pdfExists : Bool) (content : List Nat) :
    Option (List Nat × Nat) :=
  match info_body pdfExists content with
  | .ok v => v
  | .error _ => none

/-! ### Characterizations of the marker searches -/

theorem occ_length_le {sub l : List Nat} {i : Nat} (hs : sub ≠ [])
    (h : sub <+: l.drop i) : i + sub.length ≤ l.length := by
  have h1 : sub.length ≤ (l.drop i).length := h.length_le
  have h2 : (l.drop i).length = l.length - i := List.length_drop i l
  have h3 : 0 < sub.length := List.length_pos.mpr hs
  omega

theorem prefix_append_left {sub x y : List Nat} (h : sub <+: x ++ y)
    (hle : sub.length ≤ x.length) : sub <+: x := by
  rw [ List.prefix_iff_eq_take] at h ⊢
  rwa [List.take_append_of_le_length hle] at h

theorem findSub_eq_none_iff {sub : List Nat} (hs : sub ≠ []) :
    ∀ l : List Nat, (findSub l sub = none ↔ ∀ j, ¬ sub <+: l.drop j)
  | [] => by simp [findSub, hs]
  | a :: t => by
    rw [findSub]
    by_cases hp : sub <+: a :: t
    · simp only [if_pos (( List.isPrefixOf_iff_prefix).mpr hp)]
      simp only [reduceCtorEq, false_iff, not_forall, not_not]
      exact ⟨0, by simpa using hp⟩
    · rw [if_neg (by simpa [ List.isPrefixOf_iff_prefix] using hp)]
      simp only [Option.map_eq_none']
      rw [findSub_eq_none_iff hs t]
      constructor
      · intro h j
        match j with
        | 0 => simpa using hp
        | j' + 1 => simpa using h j'
      · intro h j
        simpa using h (j + 1)

theorem findSub_eq_some_iff {sub : List Nat} (hs : sub ≠ []) :
    ∀ (l : List Nat) (i : Nat), (findSub l sub = some i ↔
      (sub <+: l.drop i ∧ ∀ j, j < i → ¬ sub <+: l.drop j))
  | [], i => by
    simp [findSub, hs, List.prefix_nil]
  | a :: t, i => by
    rw [findSub]
    by_cases hp : sub <+: a :: t
    · rw [if_pos (( List.isPrefixOf_iff_prefix).mpr hp)]
      constructor
      · intro h
        have hi : i = 0 := by simpa [eq_comm] using h
        subst hi
        exact ⟨by simpa using hp, by omega⟩
      · rintro ⟨h1, h2⟩
        have hi : i = 0 := by
          by_contra hne
          exact h2 0 (by omega) (by simpa using hp)
        simp [hi]
    · rw [if_neg (by simpa [ List.isPrefixOf_iff_prefix] using hp)]
      match i with
      | 0 =>
        simp only [Option.map_eq_some']
        constructor
        · rintro ⟨i', _, h⟩
          omega
        · rintro ⟨h1, _⟩
          exact absurd (by simpa using h1) hp
      | i' + 1 =>
        constructor
        · intro h
          obtain ⟨k, hk, hk1⟩ := Option.map_eq_some'.mp h
          have hk2 : findSub t sub = some i' := by
            have hki : k = i' := by omega
            rwa [hki] at hk
          obtain ⟨h1, h2⟩ := (findSub_eq_some_iff hs t i').mp hk2
          refine ⟨by simpa using h1, ?_⟩
          intro j hj
          match j with
          | 0 => simpa using hp
          | j' + 1 =>
            have := h2 j' (by omega)
            simpa using this
        · rintro ⟨h1, h2⟩
          have hk : findSub t sub = some i' := by
            apply (findSub_eq_some_iff hs t i').mpr
            refine ⟨by simpa using h1, ?_⟩
            intro j hj
            have := h2 (j + 1) (by omega)
            simpa using this
          simp [hk]

theorem findSub_append {sub l t : List Nat} {i : Nat} (hs : sub ≠ [])
    (h : findSub l sub = some i) : findSub (l ++ t) sub = some i := by
  obtain ⟨h1, h2⟩ := (findSub_eq_some_iff hs l i).mp h
  have hb := occ_length_le hs h1
  apply (findSub_eq_some_iff hs (l ++ t) i).mpr
  constructor
  · rw [List.drop_append_of_le_length (by omega)]
    exact h1.trans (List.prefix_append _ _)
  · intro j hj hocc
    rw [List.drop_append_of_le_length (by omega)] at hocc
    have hlen : sub.length ≤ (l.drop j).length := by
      rw [List.length_drop]
      omega
    exact h2 j hj (prefix_append_left hocc hlen)

theorem findSub_isSome {sub l : List Nat} {i : Nat} (hs : sub ≠ [])
    (h : sub <+: l.drop i) : (findSub l sub).isSome = true := by
  cases hf : findSub l sub with
  | some k => rfl
  | none => exact absurd h ((findSub_eq_none_iff hs l).mp hf i)

theorem rfindSub_occ {sub : List Nat} :
    ∀ (l : List Nat) (i : Nat), rfindSub l sub = some i → sub <+: l.drop i
  | [], i => by
    intro h
    rw [rfindSub] at h
    by_cases hp : sub.isPrefixOf ([] : List Nat)
    · rw [if_pos hp] at h
      have : i = 0 := by simpa [eq_comm] using h
      subst this
      simpa using ( List.isPrefixOf_iff_prefix).mp hp
    · rw [if_neg hp] at h
      exact absurd h (by simp)
  | a :: t, i => by
    intro h
    rw [rfindSub] at h
    cases hf : rfindSub t sub with
    | some k =>
      rw [hf] at h
      have : i = k + 1 := by simpa [eq_comm] using h
      subst this
      simpa using rfindSub_occ t k hf
    | none =>
      rw [hf] at h
      by_cases hp : sub.isPrefixOf (a :: t)
      · rw [if_pos hp] at h
        have : i = 0 := by simpa [eq_comm] using h
        subst this
        simpa using ( List.isPrefixOf_iff_prefix).mp hp
      · rw [if_neg hp] at h
        exact absurd h (by simp)

theorem rfindSub_eq_none_iff {sub : List Nat} (hs : sub ≠ []) :
    ∀ l : List Nat, (rfindSub l sub = none ↔ ∀ j, ¬ sub <+: l.drop j)
  | [] => by simp [rfindSub, hs, List.prefix_nil]
  | a :: t => by
    rw [rfindSub]
    cases hf : rfindSub t sub with
    | some k =>
      simp only [reduceCtorEq, false_iff, not_forall, not_not]
      exact ⟨k + 1, by simpa using rfindSub_occ t k hf⟩
    | none =>
      have ht := (rfindSub_eq_none_iff hs t).mp hf
      by_cases hp : sub <+: a :: t
      · rw [if_pos (( List.isPrefixOf_iff_prefix).mpr hp)]
        simp only [reduceCtorEq, false_iff, not_forall, not_not]
        exact ⟨0, by simpa using hp⟩
      · rw [if_neg (by simpa [ List.isPrefixOf_iff_prefix] using hp)]
        simp only [true_iff]
        intro j
        match j with
        | 0 => simpa using hp
        | j' + 1 => simpa using ht j'

theorem rfindSub_eq_some_iff {sub : List Nat} (hs : sub ≠ []) :
    ∀ (l : List Nat) (i : Nat), (rfindSub l sub = some i ↔
      (sub <+: l.drop i ∧ ∀ j, i < j → ¬ sub <+: l.drop j))
  | [], i => by
    simp [rfindSub, hs, List.prefix_nil]
  | a :: t, i => by
    rw [rfindSub]
    cases hf : rfindSub t sub with
    | some k =>
      obtain ⟨h1, h2⟩ := (rfindSub_eq_some_iff hs t k).mp hf
      constructor
      · intro h
        have : i = k + 1 := by simpa [eq_comm] using h
        subst this
        refine ⟨by simpa using h1, ?_⟩
        intro j hj
        match j with
        | 0 => omega
        | j' + 1 => simpa using h2 j' (by omega)
      · rintro ⟨g1, g2⟩
        have hik : i = k + 1 := by
          rcases Nat.lt_trichotomy i (k + 1) with hlt | heq | hgt
          · exact absurd (by simpa using h1) (g2 (k + 1) hlt)
          · exact heq
          · match i, hgt with
            | i' + 1, _ =>
              exact absurd (by simpa using g1) (h2 i' (by omega))
        simp [hik]
    | none =>
      have ht := (rfindSub_eq_none_iff hs t).mp hf
      by_cases hp : sub <+: a :: t
      · rw [if_pos (( List.isPrefixOf_iff_prefix).mpr hp)]
        constructor
        · intro h
          have : i = 0 := by simpa [eq_comm] using h
          subst this
          refine ⟨by simpa using hp, ?_⟩
          intro j hj
          match j with
          | 0 => omega
          | j' + 1 => simpa using ht j'
        · rintro ⟨g1, _⟩
          have : i = 0 := by
            match i with
            | 0 => rfl
            | i' + 1 => exact absurd (by simpa using g1) (ht i')
          simp [this]
      · rw [if_neg (by simpa [ List.isPrefixOf_iff_prefix] using hp)]
        constructor
        · intro h
          exact absurd h (by simp)
        · rintro ⟨g1, _⟩
          match i with
          | 0 => exact absurd (by simpa using g1) hp
          | i' + 1 => exact absurd (by simpa using g1) (ht i')

/-! ### Slice and package arithmetic -/

theorem pySlice_exact (A B C : List Nat) :
    pySlice (A ++ (B ++ C)) A.length (A.length + B.length) = B := by
  unfold pySlice
  rw [List.take_append, List.take_left]
  rw [List.drop_left]

theorem pySlice_exact₂ (A B : List Nat) :
    pySlice (A ++ B) A.length (A.length + B.length) = B := by
  have h := pySlice_exact A B []
  simpa using h

theorem pack4b_length (n : Nat) : (pack4b n).length = 4 := rfl

theorem unpack4_pack4b {n : Nat} (h : n < 4294967296) :
    unpack4 (pack4b n) = .ok n := by
  show Except.ok (n % 256 + 256 * (n / 256 % 256) + 65536 * (n / 65536 % 256)
        + 16777216 * (n / 16777216 % 256)) = Except.ok n
  congr 1
  omega

theorem packageOf_eq (name data : List Nat) :
    packageOf name data
      = pack4b name.length ++ (name ++ (pack4b data.length ++ data)) := by
  simp [packageOf, List.append_assoc]

theorem packageOf_length (name data : List Nat) :
    (packageOf name data).length = 4 + name.length + 4 + data.length := by
  simp [packageOf, pack4b]
  omega

theorem packageOf_slice_flen (name data : List Nat) :
    pySlice (packageOf name data) 0 4 = pack4b name.length := by
  have h := pySlice_exact [] (pack4b name.length) (name ++ (pack4b data.length ++ data))
  rw [packageOf_eq]
  simpa [pack4b] using h

theorem packageOf_slice_name (name data : List Nat) :
    pySlice (packageOf name data) 4 (4 + name.length) = name := by
  have h := pySlice_exact (pack4b name.length) name (pack4b data.length ++ data)
  rw [packageOf_eq]
  simpa [pack4b_length] using h

theorem packageOf_slice_dlen (name data : List Nat) :
    pySlice (packageOf name data) (4 + name.length) (4 + name.length + 4)
      = pack4b data.length := by
  have h := pySlice_exact (pack4b name.length ++ name) (pack4b data.length) data
  have hl : (pack4b name.length ++ name).length = 4 + name.length := by
    simp [pack4b]
    omega
  rw [hl] at h
  rw [packageOf_eq, ← List.append_assoc]
  simpa [pack4b_length] using h

theorem packageOf_slice_data (name data : List Nat) :
    pySlice (packageOf name data) (4 + name.length + 4)
      (4 + name.length + 4 + data.length) = data := by
  have h := pySlice_exact₂ (pack4b name.length ++ name ++ pack4b data.length) data
  have hl : (pack4b name.length ++ name ++ pack4b data.length).length
      = 4 + name.length + 4 := by
    simp [pack4b]
    omega
  rw [hl] at h
  rw [packageOf_eq, ← List.append_assoc, ← List.append_assoc]
  exact h

/-! ### The embed output and its structure -/

theorem embedOutput_assoc (pdf : List Nat) (i : Nat) (name data : List Nat) :
    embedOutput pdf i name data
      = (pdf.take (i + 5) ++ [10]) ++ MARKER ++ packageOf name data
          ++ MARKER_END ++ [10] := by
  simp [embedOutput, List.append_assoc]

theorem embedOutput_take5 {pdf : List Nat} (i : Nat) (name data : List Nat)
    (hhdr : pdf.take 5 = PDF_HEADER) :
    (embedOutput pdf i name data).take 5 = PDF_HEADER := by
  have h5 : 5 ≤ (pdf.take (i + 5)).length := by
    have hlp : pdf.take 5 ≠ [] := by rw [hhdr]; simp [PDF_HEADER]
    have : 5 ≤ pdf.length := by
      by_contra hgt
      have : pdf.take 5 = pdf := List.take_of_length_le (by omega)
      rw [this] at hhdr
      have : pdf.length = 5 := by rw [hhdr]; rfl
      omega
    rw [List.length_take]
    omega
  rw [embedOutput]
  simp only [List.append_assoc]
  rw [List.take_append_of_le_length h5, List.take_take]
  have : min 5 (i + 5) = 5 := by omega
  rw [this, hhdr]

theorem hide_body_ok {pdf payload name : List Nat} {i : Nat}
    (hhdr : pdf.take 5 = PDF_HEADER)
    (hext : lowerBytes (sxExt name) ∈ SUPPORTED_FORMATS)
    (hn : name.length < 4294967296) (hd : payload.length < 4294967296)
    (heof : rfindSub pdf EOF_MARKER = some i) :
    hide_body true pdf true payload name = .ok (embedOutput pdf i name payload) := by
  simp [hide_body, validate_pdf, validate_file_format, pack4, hhdr, hext, hn, hd, heof]

@[simp] theorem toOption_ok {e a : Type} (x : a) :
    (Except.ok x : Except e a).toOption = some x := rfl

@[simp] theorem toOption_error {e a : Type} (x : e) :
    (Except.error x : Except e a).toOption = none := rfl

theorem MARKER_ne_nil : (MARKER : List Nat) ≠ [] := by decide

theorem MARKER_END_ne_nil : (MARKER_END : List Nat) ≠ [] := by decide

theorem embed_findSub_MARKER {pdf : List Nat} {i : Nat} (name data : List Nat)
    (hS : findSub ((pdf.take (i + 5) ++ [10]) ++ MARKER) MARKER
          = some (pdf.take (i + 5) ++ [10]).length) :
    findSub (embedOutput pdf i name data) MARKER
      = some (pdf.take (i + 5) ++ [10]).length := by
  have ho : embedOutput pdf i name data
      = ((pdf.take (i + 5) ++ [10]) ++ MARKER)
          ++ (packageOf name data ++ MARKER_END ++ [10]) := by
    simp [embedOutput, List.append_assoc]
  rw [ho]
  exact findSub_append MARKER_ne_nil hS

theorem embed_findSub_MARKER_END {pdf : List Nat} {i : Nat} (name data : List Nat)
    (hE : findSub ((pdf.take (i + 5) ++ [10]) ++ MARKER ++ packageOf name data
            ++ MARKER_END) MARKER_END
          = some ((pdf.take (i + 5) ++ [10]).length + MARKER.length
              + (packageOf name data).length)) :
    findSub (embedOutput pdf i name data) MARKER_END
      = some ((pdf.take (i + 5) ++ [10]).length + MARKER.length
          + (packageOf name data).length) := by
  have ho : embedOutput pdf i name data
      = ((pdf.take (i + 5) ++ [10]) ++ MARKER ++ packageOf name data ++ MARKER_END)
          ++ [10] := by
    simp [embedOutput, List.append_assoc]
  rw [ho]
  exact findSub_append MARKER_END_ne_nil hE

theorem embed_pkg_slice (pdf : List Nat) (i : Nat) (name data : List Nat) :
    pySlice (embedOutput pdf i name data)
        ((pdf.take (i + 5) ++ [10]).length + MARKER.length)
        ((pdf.take (i + 5) ++ [10]).length + MARKER.length + (packageOf name data).length)
      = packageOf name data := by
  have h := pySlice_exact ((pdf.take (i + 5) ++ [10]) ++ MARKER) (packageOf name data)
    (MARKER_END ++ [10])
  rw [List.length_append ((pdf.take (i + 5) ++ [10])) MARKER] at h
  have ho : embedOutput pdf i name data
      = ((pdf.take (i + 5) ++ [10]) ++ MARKER)
          ++ (packageOf name data ++ (MARKER_END ++ [10])) := by
    simp [embedOutput, List.append_assoc]
  rw [ho]
  exact h

theorem extract_body_on_embed (pdf : List Nat) (i : Nat) (name data : List Nat)
    (existing : List (List Nat))
    (hhdr : pdf.take 5 = PDF_HEADER)
    (hn : name.length < 4294967296) (hd : data.length < 4294967296)
    (hutf : isValidUtf8 name = true)
    (hS : findSub ((pdf.take (i + 5) ++ [10]) ++ MARKER) MARKER
          = some (pdf.take (i + 5) ++ [10]).length)
    (hE : findSub ((pdf.take (i + 5) ++ [10]) ++ MARKER ++ packageOf name data
            ++ MARKER_END) MARKER_END
          = some ((pdf.take (i + 5) ++ [10]).length + MARKER.length
              + (packageOf name data).length)) :
    extract_body true (embedOutput pdf i name data) existing
      = .ok (resolve_output_name existing name, data) := by
  have hH := embedOutput_take5 i name data hhdr
  have hfS := embed_findSub_MARKER name data hS
  have hfE := embed_findSub_MARKER_END name data hE
  have hslice := embed_pkg_slice pdf i name data
  simp only [extract_body, validate_pdf, hH, hfS, hfE, hslice,
    packageOf_slice_flen, packageOf_slice_name, packageOf_slice_dlen,
    packageOf_slice_data, unpack4_pack4b hn, unpack4_pack4b hd, hutf,
    Bool.true_eq_false, if_false, ite_true, if_pos rfl]

theorem info_body_on_embed (pdf : List Nat) (i : Nat) (name data : List Nat)
    (hhdr : pdf.take 5 = PDF_HEADER)
    (hn : name.length < 4294967296) (hd : data.length < 4294967296)
    (hutf : isValidUtf8 name = true)
    (hS : findSub ((pdf.take (i + 5) ++ [10]) ++ MARKER) MARKER
          = some (pdf.take (i + 5) ++ [10]).length)
    (hE : findSub ((pdf.take (i + 5) ++ [10]) ++ MARKER ++ packageOf name data
            ++ MARKER_END) MARKER_END
          = some ((pdf.take (i + 5) ++ [10]).length + MARKER.length
              + (packageOf name data).length)) :
    info_body true (embedOutput pdf i name data) = .ok (some (name, data.length)) := by
  have hH := embedOutput_take5 i name data hhdr
  have hfS := embed_findSub_MARKER name data hS
  have hfE := embed_findSub_MARKER_END name data hE
  have hslice := embed_pkg_slice pdf i name data
  simp only [info_body, validate_pdf, hH, hfS, hfE, hslice,
    packageOf_slice_flen, packageOf_slice_name, packageOf_slice_dlen,
    unpack4_pack4b hn, unpack4_pack4b hd, hutf,
    Bool.true_eq_false, if_false, ite_true, if_pos rfl]

theorem resolve_not_mem {existing : List (List Nat)} {name : List Nat}
    (h : name ∉ existing) : resolve_output_name existing name = name := by
  simp only [resolve_output_name, resolveLoop]
  simp [h]

/-! ### Claim theorems -/

/-- Claim C1 (corrected).  Round-trip: for a carrier with the `%PDF-` header
whose last `%%EOF` occurrence is at index `i`, a payload with an allow-listed
name whose lengths fit in 32 bits, and under the proviso (hS, hE) that the
first occurrence of each marker in the embedded file is the one `hide_file`
itself wrote (which holds whenever the markers occur nowhere in the carrier
prefix, the file name or the payload), and with the name bytes valid UTF-8
(embed's name is the UTF-8 encoding of a basename string, so this always
holds for the program's own outputs), extraction from the embedded output
recovers exactly the pair of the duplicate-resolved name and the payload,
and the resolved name is the original name whenever the output directory has
no file of that name.  The unqualified claim is refuted by
`C1_counterexample`. -/
theorem C1_round_trip (pdf payload name : List Nat) (existing : List (List Nat))
    (i : Nat)
    (hhdr : pdf.take 5 = PDF_HEADER)
    (hext : lowerBytes (sxExt name) ∈ SUPPORTED_FORMATS)
    (hn : name.length < 4294967296) (hd : payload.length < 4294967296)
    (hutf : isValidUtf8 name = true)
    (heof : rfindSub pdf EOF_MARKER = some i)
    (hS : findSub ((pdf.take (i + 5) ++ [10]) ++ MARKER) MARKER
          = some (pdf.take (i + 5) ++ [10]).length)
    (hE : findSub ((pdf.take (i + 5) ++ [10]) ++ MARKER ++ packageOf name payload
            ++ MARKER_END) MARKER_END
          = some ((pdf.take (i + 5) ++ [10]).length + MARKER.length
              + (packageOf name payload).length)) :
    hide_file true pdf true payload name = some (embedOutput pdf i name payload) ∧
    extract_file true (embedOutput pdf i name payload) existing
      = some (resolve_output_name existing name, payload) ∧
    (name ∉ existing → resolve_output_name existing name = name) := by
  refine ⟨?_, ?_, resolve_not_mem⟩
  · rw [hide_file, hide_body_ok hhdr hext hn hd heof]
    rfl
  · rw [extract_file,
      extract_body_on_embed pdf i name payload existing hhdr hn hd hutf hS hE]
    rfl

/-- Witness for C1 at the carrier `%PDF-%%EOF`, payload `hello`, name
`s.txt`, empty output directory. -/
theorem C1_round_trip_witness :
    hide_file true [37, 80, 68, 70, 45, 37, 37, 69, 79, 70] true
        [104, 101, 108, 108, 111] [115, 46, 116, 120, 116]
      = some (embedOutput [37, 80, 68, 70, 45, 37, 37, 69, 79, 70] 5
          [115, 46, 116, 120, 116] [104, 101, 108, 108, 111]) ∧
    extract_file true (embedOutput [37, 80, 68, 70, 45, 37, 37, 69, 79, 70] 5
        [115, 46, 116, 120, 116] [104, 101, 108, 108, 111]) []
      = some (resolve_output_name [] [115, 46, 116, 120, 116],
          [104, 101, 108, 108, 111]) ∧
    ([115, 46, 116, 120, 116] ∉ ([] : List (List Nat)) →
      resolve_output_name [] [115, 46, 116, 120, 116] = [115, 46, 116, 120, 116]) :=
  C1_round_trip [37, 80, 68, 70, 45, 37, 37, 69, 79, 70] [104, 101, 108, 108, 111]
    [115, 46, 116, 120, 116] [] 5 (by decide) (by decide) (by decide) (by decide)
    (by decide) (by decide) (by decide) (by decide)

/-- Counterexample to C1 as frozen: with the valid carrier `%PDF-%%EOF` and
the allow-listed payload name `s.txt`, taking the payload bytes to be the
end marker itself makes `hide_file` succeed but `extract_file` return `None`
(the first `<<HIDDEN_DATA_END>>` occurrence falls inside the stored data, the
sliced package is short, and the length integrity check fails), so extraction
does not recover `(N, P)`. -/
theorem C1_counterexample :
    hide_file true [37, 80, 68, 70, 45, 37, 37, 69, 79, 70] true MARKER_END
        [115, 46, 116, 120, 116]
      = some (embedOutput [37, 80, 68, 70, 45, 37, 37, 69, 79, 70] 5
          [115, 46, 116, 120, 116] MARKER_END) ∧
    extract_file true (embedOutput [37, 80, 68, 70, 45, 37, 37, 69, 79, 70] 5
        [115, 46, 116, 120, 116] MARKER_END) [] = none := by
  constructor
  · decide
  · decide

theorem EOF_MARKER_ne_nil : (EOF_MARKER : List Nat) ≠ [] := by decide

/-- Claim C2.  Embed output layout: when the validations pass and `i` is the
last occurrence of `%%EOF` in the carrier (an occurrence with none after it),
the bytes written by embed are exactly the carrier up to and including that
occurrence, one newline, the start marker, the package (4-byte little-endian
name length, name bytes, 4-byte little-endian data length, payload bytes),
the end marker, and one trailing newline; and on the spec's concrete scenario
(carrier `%PDF-1.4\n...body...\n%%EOF\n`, name `secret.txt`, content
`hello`) the output ends in exactly the bytes
`\n<<HIDDEN_DATA_START>>\x0a\x00\x00\x00secret.txt\x05\x00\x00\x00hello<<HIDDEN_DATA_END>>\n`. -/
theorem C2_embed_layout (pdf payload name : List Nat) (i : Nat)
    (hhdr : pdf.take 5 = PDF_HEADER)
    (hext : lowerBytes (sxExt name) ∈ SUPPORTED_FORMATS)
    (hn : name.length < 4294967296) (hd : payload.length < 4294967296)
    (hocc : EOF_MARKER <+: pdf.drop i)
    (hlast : ∀ j, i < j → ¬ EOF_MARKER <+: pdf.drop j) :
    hide_file true pdf true payload name
      = some (pdf.take (i + 5) ++ [10] ++ MARKER
          ++ (pack4b name.length ++ name ++ pack4b payload.length ++ payload)
          ++ MARKER_END ++ [10]) ∧
    hide_file true
        [37, 80, 68, 70, 45, 49, 46, 52, 10, 46, 46, 46, 98, 111, 100, 121,
         46, 46, 46, 10, 37, 37, 69, 79, 70, 10] true
        [104, 101, 108, 108, 111]
        [115, 101, 99, 114, 101, 116, 46, 116, 120, 116]
      = some ([37, 80, 68, 70, 45, 49, 46, 52, 10, 46, 46, 46, 98, 111, 100, 121,
          46, 46, 46, 10, 37, 37, 69, 79, 70]
          ++ ([10] ++ MARKER ++ [10, 0, 0, 0]
              ++ [115, 101, 99, 114, 101, 116, 46, 116, 120, 116]
              ++ [5, 0, 0, 0] ++ [104, 101, 108, 108, 111] ++ MARKER_END ++ [10])) := by
  constructor
  · have heof : rfindSub pdf EOF_MARKER = some i :=
      (rfindSub_eq_some_iff EOF_MARKER_ne_nil pdf i).mpr ⟨hocc, hlast⟩
    rw [hide_file, hide_body_ok hhdr hext hn hd heof]
    simp [embedOutput, packageOf, List.append_assoc]
  · decide

/-- Witness for C2 at the carrier `%PDF-%%EOF` with `i = 5`, payload `hello`,
name `s.txt`. -/
theorem C2_embed_layout_witness :
    hide_file true [37, 80, 68, 70, 45, 37, 37, 69, 79, 70] true
        [104, 101, 108, 108, 111] [115, 46, 116, 120, 116]
      = some ((List.take (5 + 5) [37, 80, 68, 70, 45, 37, 37, 69, 79, 70])
          ++ [10] ++ MARKER
          ++ (pack4b (List.length [115, 46, 116, 120, 116]) ++ [115, 46, 116, 120, 116]
              ++ pack4b (List.length [104, 101, 108, 108, 111]) ++ [104, 101, 108, 108, 111])
          ++ MARKER_END ++ [10]) ∧
    hide_file true
        [37, 80, 68, 70, 45, 49, 46, 52, 10, 46, 46, 46, 98, 111, 100, 121,
         46, 46, 46, 10, 37, 37, 69, 79, 70, 10] true
        [104, 101, 108, 108, 111]
        [115, 101, 99, 114, 101, 116, 46, 116, 120, 116]
      = some ([37, 80, 68, 70, 45, 49, 46, 52, 10, 46, 46, 46, 98, 111, 100, 121,
          46, 46, 46, 10, 37, 37, 69, 79, 70]
          ++ ([10] ++ MARKER ++ [10, 0, 0, 0]
              ++ [115, 101, 99, 114, 101, 116, 46, 116, 120, 116]
              ++ [5, 0, 0, 0] ++ [104, 101, 108, 108, 111] ++ MARKER_END ++ [10])) :=
  C2_embed_layout [37, 80, 68, 70, 45, 37, 37, 69, 79, 70] [104, 101, 108, 108, 111]
    [115, 46, 116, 120, 116] 5 (by decide) (by decide) (by decide) (by decide)
    ⟨[], by decide⟩
    (fun j hj h => by
      have hl := h.length_le
      rw [List.length_drop] at hl
      have h10 : (List.length [37, 80, 68, 70, 45, 37, 37, 69, 79, 70] : Nat) = 10 := by
        decide
      have h5 : (EOF_MARKER.length : Nat) = 5 := by decide
      omega)

/-- Claim C3 (corrected).  Truncating the output of a successful embed at any
point `t` strictly between the package's data start and its recorded end cuts
off the end marker as well, so `extract_file` fails — but with the
NoHiddenData error (`"No hidden data found in this PDF"`), not with
DataCorruption as the claim states; no output file is written either way.
The hypothesis hE says the end marker written by embed is its first
occurrence, which holds whenever the marker bytes occur nowhere in the
carrier prefix, name, or payload.  `C3_counterexample` refutes the
DataCorruption wording on a concrete embed output. -/
theorem C3_truncation (pdf payload name : List Nat) (existing : List (List Nat))
    (i t : Nat)
    (hhdr : pdf.take 5 = PDF_HEADER)
    (hext : lowerBytes (sxExt name) ∈ SUPPORTED_FORMATS)
    (hn : name.length < 4294967296) (hd : payload.length < 4294967296)
    (heof : rfindSub pdf EOF_MARKER = some i)
    (hE : findSub ((pdf.take (i + 5) ++ [10]) ++ MARKER ++ packageOf name payload
            ++ MARKER_END) MARKER_END
          = some ((pdf.take (i + 5) ++ [10]).length + MARKER.length
              + (packageOf name payload).length))
    (ht1 : (pdf.take (i + 5) ++ [10]).length + MARKER.length + 8 + name.length < t)
    (ht2 : t < (pdf.take (i + 5) ++ [10]).length + MARKER.length
        + (packageOf name payload).length) :
    hide_file true pdf true payload name = some (embedOutput pdf i name payload) ∧
    extract_body true ((embedOutput pdf i name payload).take t) existing
      = .error .noHiddenData ∧
    extract_file true ((embedOutput pdf i name payload).take t) existing = none := by
  have hm21 : (MARKER.length : Nat) = 21 := by decide
  have hm19 : (MARKER_END.length : Nat) = 19 := by decide
  have hBlen : ((pdf.take (i + 5) ++ [10]) ++ MARKER ++ packageOf name payload).length
      = (pdf.take (i + 5) ++ [10]).length + MARKER.length
        + (packageOf name payload).length := by
    simp [List.length_append]
    omega
  have hOB : embedOutput pdf i name payload
      = ((pdf.take (i + 5) ++ [10]) ++ MARKER ++ packageOf name payload)
          ++ (MARKER_END ++ [10]) := by
    simp [embedOutput, List.append_assoc]
  have htB : t ≤ ((pdf.take (i + 5) ++ [10]) ++ MARKER ++ packageOf name payload).length := by
    omega
  have htrunc : (embedOutput pdf i name payload).take t
      = ((pdf.take (i + 5) ++ [10]) ++ MARKER ++ packageOf name payload).take t := by
    rw [hOB, List.take_append_of_le_length htB]
  obtain ⟨-, hmin⟩ := (findSub_eq_some_iff MARKER_END_ne_nil _ _).mp hE
  have hnone : findSub ((embedOutput pdf i name payload).take t) MARKER_END = none := by
    rw [htrunc]
    apply (findSub_eq_none_iff MARKER_END_ne_nil _).mpr
    intro j hocc2
    have h1 : MARKER_END
        <+: ((pdf.take (i + 5) ++ [10]) ++ MARKER ++ packageOf name payload).drop j := by
      rw [List.drop_take] at hocc2
      exact hocc2.trans ( List.take_prefix _ _)
    have hjb := occ_length_le MARKER_END_ne_nil h1
    have h3 : MARKER_END
        <+: (((pdf.take (i + 5) ++ [10]) ++ MARKER ++ packageOf name payload)
            ++ MARKER_END).drop j := by
      rw [List.drop_append_of_le_length (by omega)]
      exact h1.trans (List.prefix_append _ _)
    exact hmin j (by omega) h3
  have hH5 : ((embedOutput pdf i name payload).take t).take 5 = PDF_HEADER := by
    rw [List.take_take]
    have hmin5 : min 5 t = 5 := by omega
    rw [hmin5]
    exact embedOutput_take5 i name payload hhdr
  refine ⟨?_, ?_, ?_⟩
  · rw [hide_file, hide_body_ok hhdr hext hn hd heof]
    rfl
  · cases hM : findSub ((embedOutput pdf i name payload).take t) MARKER with
    | none => simp [extract_body, validate_pdf, hH5, hnone, hM]
    | some s => simp [extract_body, validate_pdf, hH5, hnone, hM]
  · rw [extract_file]
    cases hM : findSub ((embedOutput pdf i name payload).take t) MARKER with
    | none => simp [extract_body, validate_pdf, hH5, hnone, hM]
    | some s => simp [extract_body, validate_pdf, hH5, hnone, hM]

/-- Witness for C3 at the carrier `%PDF-%%EOF`, payload `hello`, name
`s.txt`, truncation point 47 (data start 45, recorded end 50). -/
theorem C3_truncation_witness :
    hide_file true [37, 80, 68, 70, 45, 37, 37, 69, 79, 70] true
        [104, 101, 108, 108, 111] [115, 46, 116, 120, 116]
      = some (embedOutput [37, 80, 68, 70, 45, 37, 37, 69, 79, 70] 5
          [115, 46, 116, 120, 116] [104, 101, 108, 108, 111]) ∧
    extract_body true ((embedOutput [37, 80, 68, 70, 45, 37, 37, 69, 79, 70] 5
        [115, 46, 116, 120, 116] [104, 101, 108, 108, 111]).take 47) []
      = .error .noHiddenData ∧
    extract_file true ((embedOutput [37, 80, 68, 70, 45, 37, 37, 69, 79, 70] 5
        [115, 46, 116, 120, 116] [104, 101, 108, 108, 111]).take 47) [] = none :=
  C3_truncation [37, 80, 68, 70, 45, 37, 37, 69, 79, 70] [104, 101, 108, 108, 111]
    [115, 46, 116, 120, 116] [] 5 47 (by decide) (by decide) (by decide) (by decide)
    (by decide) (by decide) (by decide) (by decide)

/-- Counterexample to C3 as frozen: for the embed output built from carrier
`%PDF-%%EOF`, name `s.txt`, payload `hello`, the data starts at byte 45 and
its recorded end is byte 50; truncating at byte 47 (strictly between the two)
makes extract raise NoHiddenData, not DataCorruption. -/
theorem C3_counterexample :
    hide_file true [37, 80, 68, 70, 45, 37, 37, 69, 79, 70] true
        [104, 101, 108, 108, 111] [115, 46, 116, 120, 116]
      = some (embedOutput [37, 80, 68, 70, 45, 37, 37, 69, 79, 70] 5
          [115, 46, 116, 120, 116] [104, 101, 108, 108, 111]) ∧
    extract_body true ((embedOutput [37, 80, 68, 70, 45, 37, 37, 69, 79, 70] 5
        [115, 46, 116, 120, 116] [104, 101, 108, 108, 111]).take 47) []
      = .error PyErr.noHiddenData ∧
    extract_body true ((embedOutput [37, 80, 68, 70, 45, 37, 37, 69, 79, 70] 5
        [115, 46, 116, 120, 116] [104, 101, 108, 108, 111]).take 47) []
      ≠ .error PyErr.dataCorruption := by
  refine ⟨by decide, by decide, by decide⟩


/-- Claim C4.  Rejection: embed fails (returns failure, writes no output
file) whenever the carrier lacks the `%PDF-` signature, or the carrier has no
`%%EOF` occurrence, or the payload path does not exist, or the lower-cased
payload extension is not in the allow-list. -/
theorem C4_rejection (pdfExists : Bool) (pdf : List Nat) (payloadExists : Bool)
    (payload name : List Nat)
    (h : pdf.take 5 ≠ PDF_HEADER ∨ rfindSub pdf EOF_MARKER = none
        ∨ payloadExists = false ∨ lowerBytes (sxExt name) ∉ SUPPORTED_FORMATS) :
    hide_file pdfExists pdf payloadExists payload name = none := by
  rcases h with h | h | h | h
  · cases pdfExists with
    | false => simp [hide_file, hide_body, validate_pdf]
    | true => simp [hide_file, hide_body, validate_pdf, h]
  · cases hv : validate_pdf pdfExists pdf with
    | error er => simp [hide_file, hide_body, hv]
    | ok u =>
      cases hf : validate_file_format name with
      | error er => simp [hide_file, hide_body, hv, hf]
      | ok v =>
        by_cases hp : payloadExists = false
        · simp [hide_file, hide_body, hv, hf, hp]
        · cases hn4 : pack4 name.length with
          | error er => simp [hide_file, hide_body, hv, hf, hp, hn4]
          | ok bs =>
            cases hd4 : pack4 payload.length with
            | error er => simp [hide_file, hide_body, hv, hf, hp, hn4, hd4]
            | ok bs2 => simp [hide_file, hide_body, hv, hf, hp, hn4, hd4, h]
  · cases hv : validate_pdf pdfExists pdf with
    | error er => simp [hide_file, hide_body, hv]
    | ok u =>
      cases hf : validate_file_format name with
      | error er => simp [hide_file, hide_body, hv, hf]
      | ok v => simp [hide_file, hide_body, hv, hf, h]
  · have hf : validate_file_format name = .error .unsupportedFormat := by
      simp [validate_file_format, h]
    cases hv : validate_pdf pdfExists pdf with
    | error er => simp [hide_file, hide_body, hv]
    | ok u => simp [hide_file, hide_body, hv, hf]

/-- Witness for C4: a carrier without the `%PDF-` header is rejected. -/
theorem C4_rejection_witness :
    hide_file true [] true [104, 101, 108, 108, 111] [115, 46, 116, 120, 116] = none :=
  C4_rejection true [] true [104, 101, 108, 108, 111] [115, 46, 116, 120, 116]
    (Or.inl (by decide))

theorem hide_file_some_inv {pdfExists : Bool} {pdf : List Nat} {payloadExists : Bool}
    {payload name O : List Nat}
    (h : hide_file pdfExists pdf payloadExists payload name = some O) :
    pdf.take 5 = PDF_HEADER ∧ ∃ i, O = embedOutput pdf i name payload := by
  simp only [hide_file, hide_body] at h
  cases hv : validate_pdf pdfExists pdf with
  | error er => rw [hv] at h; simp at h
  | ok u =>
    rw [hv] at h
    have hhdr : pdf.take 5 = PDF_HEADER := by
      unfold validate_pdf at hv
      by_cases hpe : pdfExists = false
      · rw [if_pos hpe] at hv; exact absurd hv (by simp)
      · rw [if_neg hpe] at hv
        by_cases hh : pdf.take 5 = PDF_HEADER
        · exact hh
        · rw [if_neg hh] at hv; exact absurd hv (by simp)
    cases hf : validate_file_format name with
    | error er => rw [hf] at h; simp at h
    | ok v =>
      rw [hf] at h
      by_cases hp : payloadExists = false
      · rw [if_pos hp] at h; simp at h
      · rw [if_neg hp] at h
        cases hn4 : pack4 name.length with
        | error er => rw [hn4] at h; simp at h
        | ok bs =>
          rw [hn4] at h
          cases hd4 : pack4 payload.length with
          | error er => rw [hd4] at h; simp at h
          | ok bs2 =>
            rw [hd4] at h
            cases he : rfindSub pdf EOF_MARKER with
            | none => rw [he] at h; simp at h
            | some i =>
              rw [he] at h
              simp only [toOption_ok, Option.some_inj] at h
              exact ⟨hhdr, i, h.symm⟩

/-- Claim C5.  Detection: for a file that passes PDF validation, detect
returns exactly the conjunction of the two independent marker existence
checks; detect is true on every output of a successful embed; and detect is
false on any carrier lacking either marker. -/
theorem C5_detection (pdfExists payloadExists : Bool)
    (c pdf payload name O : List Nat) :
    (pdfExists = true → c.take 5 = PDF_HEADER →
      check_hidden_data pdfExists c
        = (containsSub c MARKER && containsSub c MARKER_END)) ∧
    (hide_file pdfExists pdf payloadExists payload name = some O →
      check_hidden_data true O = true) ∧
    ((findSub c MARKER = none ∨ findSub c MARKER_END = none) →
      check_hidden_data pdfExists c = false) := by
  refine ⟨?_, ?_, ?_⟩
  · intro hpe hh
    subst hpe
    simp [check_hidden_data, check_body, validate_pdf, hh]
  · intro h
    obtain ⟨hhdr, i, hO⟩ := hide_file_some_inv h
    subst hO
    have hero : embedOutput pdf i name payload
        = (pdf.take (i + 5) ++ [10])
            ++ (MARKER ++ (packageOf name payload ++ (MARKER_END ++ [10]))) := by
      simp [embedOutput, List.append_assoc]
    have hero2 : embedOutput pdf i name payload
        = ((pdf.take (i + 5) ++ [10]) ++ MARKER ++ packageOf name payload)
            ++ (MARKER_END ++ [10]) := by
      simp [embedOutput, List.append_assoc]
    have hc1 : containsSub (embedOutput pdf i name payload) MARKER = true := by
      unfold containsSub
      have hocc : MARKER
          <+: (embedOutput pdf i name payload).drop (pdf.take (i + 5) ++ [10]).length := by
        rw [hero, List.drop_left]
        exact List.prefix_append _ _
      exact findSub_isSome MARKER_ne_nil hocc
    have hc2 : containsSub (embedOutput pdf i name payload) MARKER_END = true := by
      unfold containsSub
      have hocc : MARKER_END <+: (embedOutput pdf i name payload).drop
          ((pdf.take (i + 5) ++ [10]) ++ MARKER ++ packageOf name payload).length := by
        rw [hero2, List.drop_left]
        exact List.prefix_append _ _
      exact findSub_isSome MARKER_END_ne_nil hocc
    simp [check_hidden_data, check_body, validate_pdf,
      embedOutput_take5 i name payload hhdr, hc1, hc2]
  · intro h
    have hcf : (containsSub c MARKER && containsSub c MARKER_END) = false := by
      rcases h with h | h <;> simp [containsSub, h]
    cases hv : validate_pdf pdfExists c with
    | error er => simp [check_hidden_data, check_body, hv]
    | ok u => simp [check_hidden_data, check_body, hv, hcf]

/-- Witness for C5: the marker-free carrier `%PDF-` and the embed output for
carrier `%PDF-%%EOF`, payload `hello`, name `s.txt`. -/
theorem C5_detection_witness :
    check_hidden_data true [37, 80, 68, 70, 45]
      = (containsSub [37, 80, 68, 70, 45] MARKER
          && containsSub [37, 80, 68, 70, 45] MARKER_END) ∧
    check_hidden_data true (embedOutput [37, 80, 68, 70, 45, 37, 37, 69, 79, 70] 5
        [115, 46, 116, 120, 116] [104, 101, 108, 108, 111]) = true ∧
    check_hidden_data true [37, 80, 68, 70, 45] = false := by
  obtain ⟨h1, h2, h3⟩ := C5_detection true true [37, 80, 68, 70, 45]
    [37, 80, 68, 70, 45, 37, 37, 69, 79, 70] [104, 101, 108, 108, 111]
    [115, 46, 116, 120, 116]
    (embedOutput [37, 80, 68, 70, 45, 37, 37, 69, 79, 70] 5
      [115, 46, 116, 120, 116] [104, 101, 108, 108, 111])
  exact ⟨h1 rfl (by decide), h2 (by decide), h3 (Or.inl (by decide))⟩

/-- Claim C6 (corrected).  Describe: on the output of a successful embed,
under the same first-occurrence proviso as C1 (markers occur nowhere but
where embed wrote them) and with the name bytes valid UTF-8 (always true of
embed's own outputs), describe returns exactly `(N, len(P))`; and on any
valid carrier missing either marker it returns the explicit absent value
(`return None`), not an error.  The unqualified claim is refuted by
`C6_counterexample`. -/
theorem C6_describe (pdf payload name : List Nat) (i : Nat)
    (hhdr : pdf.take 5 = PDF_HEADER)
    (hext : lowerBytes (sxExt name) ∈ SUPPORTED_FORMATS)
    (hn : name.length < 4294967296) (hd : payload.length < 4294967296)
    (hutf : isValidUtf8 name = true)
    (heof : rfindSub pdf EOF_MARKER = some i)
    (hS : findSub ((pdf.take (i + 5) ++ [10]) ++ MARKER) MARKER
          = some (pdf.take (i + 5) ++ [10]).length)
    (hE : findSub ((pdf.take (i + 5) ++ [10]) ++ MARKER ++ packageOf name payload
            ++ MARKER_END) MARKER_END
          = some ((pdf.take (i + 5) ++ [10]).length + MARKER.length
              + (packageOf name payload).length)) :
    hide_file true pdf true payload name = some (embedOutput pdf i name payload) ∧
    get_hidden_file_info true (embedOutput pdf i name payload)
      = some (name, payload.length) ∧
    (∀ c : List Nat, c.take 5 = PDF_HEADER →
      (findSub c MARKER = none ∨ findSub c MARKER_END = none) →
      info_body true c = .ok none) := by
  refine ⟨?_, ?_, ?_⟩
  · rw [hide_file, hide_body_ok hhdr hext hn hd heof]
    rfl
  · rw [get_hidden_file_info,
      info_body_on_embed pdf i name payload hhdr hn hd hutf hS hE]
  · intro c hh hm
    rcases hm with hm | hm
    · cases hb : findSub c MARKER_END <;>
        simp [info_body, validate_pdf, hh, hm, hb]
    · cases ha : findSub c MARKER <;>
        simp [info_body, validate_pdf, hh, hm, ha]

/-- Witness for C6 at the carrier `%PDF-%%EOF`, payload `hello`, name
`s.txt`. -/
theorem C6_describe_witness :
    hide_file true [37, 80, 68, 70, 45, 37, 37, 69, 79, 70] true
        [104, 101, 108, 108, 111] [115, 46, 116, 120, 116]
      = some (embedOutput [37, 80, 68, 70, 45, 37, 37, 69, 79, 70] 5
          [115, 46, 116, 120, 116] [104, 101, 108, 108, 111]) ∧
    get_hidden_file_info true (embedOutput [37, 80, 68, 70, 45, 37, 37, 69, 79, 70] 5
        [115, 46, 116, 120, 116] [104, 101, 108, 108, 111])
      = some ([115, 46, 116, 120, 116],
          (List.length [104, 101, 108, 108, 111] : Nat)) ∧
    (∀ c : List Nat, c.take 5 = PDF_HEADER →
      (findSub c MARKER = none ∨ findSub c MARKER_END = none) →
      info_body true c = .ok none) :=
  C6_describe [37, 80, 68, 70, 45, 37, 37, 69, 79, 70] [104, 101, 108, 108, 111]
    [115, 46, 116, 120, 116] 5 (by decide) (by decide) (by decide) (by decide)
    (by decide) (by decide) (by decide) (by decide)

/-- Counterexample to C6 as frozen: a valid carrier that happens to contain
the end-marker bytes before its `%%EOF` makes embed succeed, but describe on
the embedded output returns `None` instead of `(N, len(P))` (the first
end-marker occurrence precedes the start marker, the sliced package is
empty, and the 4-byte unpack raises). -/
theorem C6_counterexample :
    hide_file true ([37, 80, 68, 70, 45] ++ MARKER_END ++ [37, 37, 69, 79, 70]) true
        [104, 101, 108, 108, 111] [115, 46, 116, 120, 116]
      = some (embedOutput ([37, 80, 68, 70, 45] ++ MARKER_END ++ [37, 37, 69, 79, 70])
          24 [115, 46, 116, 120, 116] [104, 101, 108, 108, 111]) ∧
    get_hidden_file_info true
        (embedOutput ([37, 80, 68, 70, 45] ++ MARKER_END ++ [37, 37, 69, 79, 70])
          24 [115, 46, 116, 120, 116] [104, 101, 108, 108, 111]) = none := by
  exact ⟨by decide, by decide⟩

theorem sx_append (p : List Nat) : sxBase p ++ sxExt p = p := by
  unfold sxBase sxExt
  cases h : splitextPos p <;> simp

theorem sx_length (p : List Nat) :
    (sxBase p).length + (sxExt p).length = p.length := by
  have h := congrArg List.length (sx_append p)
  simpa [List.length_append] using h

theorem suffixed_ne (name : List Nat) :
    sxBase name ++ [95, 49] ++ sxExt name ≠ name := by
  intro hcontra
  have hlen := congrArg List.length hcontra
  have hba := sx_length name
  simp [List.length_append] at hlen
  omega

theorem resolve_single (name : List Nat) :
    resolve_output_name [name] name = sxBase name ++ [95, 49] ++ sxExt name := by
  have hcand : sxBase name ++ 95 :: 49 :: sxExt name ≠ name := by
    intro hcontra
    apply suffixed_ne name
    simpa [List.append_assoc] using hcontra
  simp only [resolve_output_name, List.length_singleton, resolveLoop,
    List.mem_singleton]
  simp [show natDecimalBytes 1 = [49] from rfl, hcand, List.append_assoc]

/-- Claim C7.  Collision handling: extracting an embed output (under the C1
first-occurrence proviso) into an empty directory yields the original name;
extracting it again, with that file now present, yields the name with `_1`
inserted before the extension, a different file name — so two extractions
into the same directory produce `name.ext` and `name_1.ext`. -/
theorem C7_collision (pdf payload name : List Nat) (i : Nat)
    (hhdr : pdf.take 5 = PDF_HEADER)
    (hn : name.length < 4294967296) (hd : payload.length < 4294967296)
    (hutf : isValidUtf8 name = true)
    (hS : findSub ((pdf.take (i + 5) ++ [10]) ++ MARKER) MARKER
          = some (pdf.take (i + 5) ++ [10]).length)
    (hE : findSub ((pdf.take (i + 5) ++ [10]) ++ MARKER ++ packageOf name payload
            ++ MARKER_END) MARKER_END
          = some ((pdf.take (i + 5) ++ [10]).length + MARKER.length
              + (packageOf name payload).length)) :
    extract_file true (embedOutput pdf i name payload) [] = some (name, payload) ∧
    extract_file true (embedOutput pdf i name payload) [name]
      = some (sxBase name ++ [95, 49] ++ sxExt name, payload) ∧
    sxBase name ++ [95, 49] ++ sxExt name ≠ name := by
  refine ⟨?_, ?_, suffixed_ne name⟩
  · rw [extract_file,
      extract_body_on_embed pdf i name payload [] hhdr hn hd hutf hS hE]
    rw [resolve_not_mem (by simp)]
    rfl
  · rw [extract_file,
      extract_body_on_embed pdf i name payload [name] hhdr hn hd hutf hS hE]
    rw [resolve_single]
    rfl

/-- Witness for C7 at the carrier `%PDF-%%EOF`, payload `hello`, name
`s.txt`: the two extractions produce `s.txt` and `s_1.txt`. -/
theorem C7_collision_witness :
    extract_file true (embedOutput [37, 80, 68, 70, 45, 37, 37, 69, 79, 70] 5
        [115, 46, 116, 120, 116] [104, 101, 108, 108, 111]) []
      = some ([115, 46, 116, 120, 116], [104, 101, 108, 108, 111]) ∧
    extract_file true (embedOutput [37, 80, 68, 70, 45, 37, 37, 69, 79, 70] 5
        [115, 46, 116, 120, 116] [104, 101, 108, 108, 111]) [[115, 46, 116, 120, 116]]
      = some (sxBase [115, 46, 116, 120, 116] ++ [95, 49]
          ++ sxExt [115, 46, 116, 120, 116], [104, 101, 108, 108, 111]) ∧
    sxBase [115, 46, 116, 120, 116] ++ [95, 49] ++ sxExt [115, 46, 116, 120, 116]
      ≠ [115, 46, 116, 120, 116] :=
  C7_collision [37, 80, 68, 70, 45, 37, 37, 69, 79, 70] [104, 101, 108, 108, 111]
    [115, 46, 116, 120, 116] 5 (by decide) (by decide) (by decide) (by decide)
    (by decide) (by decide)

/-- Claim C8.  Propagation policy: each of the four public operations is the
catch-all wrapper of its `try:` body, so whenever the body raises any error
the operation returns its converted failure value (`False` i.e. `none` for
embed, `None` for extract and describe, `False` for detect) and no error
escapes; and detect reports an invalid PDF and a valid marker-less PDF
identically as `False`, indistinguishably. -/
theorem C8_propagation (pdfExists payloadExists : Bool)
    (pdf payload name content c1 c2 : List Nat) (existing : List (List Nat))
    (er : PyErr) :
    (hide_body pdfExists pdf payloadExists payload name = .error er →
      hide_file pdfExists pdf payloadExists payload name = none) ∧
    (extract_body pdfExists content existing = .error er →
      extract_file pdfExists content existing = none) ∧
    (check_body pdfExists content = .error er →
      check_hidden_data pdfExists content = false) ∧
    (info_body pdfExists content = .error er →
      get_hidden_file_info pdfExists content = none) ∧
    (c1.take 5 ≠ PDF_HEADER → findSub c2 MARKER = none → c2.take 5 = PDF_HEADER →
      check_hidden_data pdfExists c1 = check_hidden_data true c2) := by
  refine ⟨?_, ?_, ?_, ?_, ?_⟩
  · intro h
    simp [hide_file, h]
  · intro h
    simp [extract_file, h]
  · intro h
    simp [check_hidden_data, h]
  · intro h
    simp [get_hidden_file_info, h]
  · intro h1 hm hh2
    have hleft : check_hidden_data pdfExists c1 = false := by
      cases pdfExists with
      | false => simp [check_hidden_data, check_body, validate_pdf]
      | true => simp [check_hidden_data, check_body, validate_pdf, h1]
    have hright : check_hidden_data true c2 = false := by
      simp [check_hidden_data, check_body, validate_pdf, hh2, containsSub, hm]
    rw [hleft, hright]

/-- Witness for C8: a missing carrier makes every body raise FileNotFound and
every public operation return its failure value; the headerless carrier `[]`
and the marker-free carrier `%PDF-` are both reported as `False` by detect. -/
theorem C8_propagation_witness :
    hide_file false [] true [104] [115, 46, 116, 120, 116] = none ∧
    extract_file false [] [] = none ∧
    check_hidden_data false [] = false ∧
    get_hidden_file_info false [] = none ∧
    check_hidden_data false [] = check_hidden_data true [37, 80, 68, 70, 45] := by
  obtain ⟨h1, h2, h3, h4, h5⟩ := C8_propagation false true [] [104]
    [115, 46, 116, 120, 116] [] [] [37, 80, 68, 70, 45] [] PyErr.fileNotFound
  exact ⟨h1 (by decide), h2 (by decide), h3 (by decide), h4 (by decide),
    h5 (by decide) (by decide) (by decide)⟩

/-- Claim C9.  For a carrier passing PDF validation in which both markers
occur but the first end-marker occurrence precedes the first start-marker
occurrence, detect returns true while extract fails and writes nothing (the
sliced package is empty and parsing raises), so a true detect does not
guarantee a successful extraction. -/
theorem C9_detect_vs_extract (c : List Nat) (existing : List (List Nat)) (s e : Nat)
    (hhdr : c.take 5 = PDF_HEADER)
    (hS : findSub c MARKER = some s)
    (hE : findSub c MARKER_END = some e)
    (hlt : e < s) :
    check_hidden_data true c = true ∧ extract_file true c existing = none := by
  constructor
  · simp [check_hidden_data, check_body, validate_pdf, hhdr, containsSub, hS, hE]
  · have hnil : pySlice c (s + MARKER.length) e = [] := by
      unfold pySlice
      apply List.drop_eq_nil_of_le
      have hle : (c.take e).length ≤ e := by
        rw [List.length_take]
        omega
      have hm : (MARKER.length : Nat) = 21 := by decide
      omega
    have hu : unpack4 (pySlice (pySlice c (s + MARKER.length) e) 0 4)
        = .error .structError := by
      rw [hnil]
      rfl
    simp [extract_file, extract_body, validate_pdf, hhdr, hS, hE, hu]

/-- Witness for C9 at the carrier `%PDF-` followed by the end marker and then
the start marker. -/
theorem C9_detect_vs_extract_witness :
    check_hidden_data true ([37, 80, 68, 70, 45] ++ MARKER_END ++ MARKER) = true ∧
    extract_file true ([37, 80, 68, 70, 45] ++ MARKER_END ++ MARKER) [] = none :=
  C9_detect_vs_extract ([37, 80, 68, 70, 45] ++ MARKER_END ++ MARKER) [] 24 5
    (by decide) (by decide) (by decide) (by decide)

/-- Claim C10 (corrected).  Describe performs no integrity check on the
payload: on a carrier whose package parses — the 4-byte length fields unpack
and the name bytes decode as UTF-8 — but whose available data bytes are fewer
than the declared data length, describe still returns the name and the
declared length, while extract on the same carrier fails with DataCorruption
(returns `None`, writes nothing).  The decode proviso is forced: for a
carrier whose name bytes are not valid UTF-8, the program's decode raises
before the data length is ever read, so describe returns `None` and extract
fails with UnicodeDecodeError instead — see `C10_counterexample`. -/
theorem C10_describe_no_integrity (c : List Nat) (existing : List (List Nat))
    (s e flen dlen : Nat)
    (hhdr : c.take 5 = PDF_HEADER)
    (hS : findSub c MARKER = some s)
    (hE : findSub c MARKER_END = some e)
    (hf : unpack4 (pySlice (pySlice c (s + MARKER.length) e) 0 4) = .ok flen)
    (hutf : isValidUtf8 (pySlice (pySlice c (s + MARKER.length) e)
        4 (4 + flen)) = true)
    (hdl : unpack4 (pySlice (pySlice c (s + MARKER.length) e)
        (4 + flen) (4 + flen + 4)) = .ok dlen)
    (hshort : (pySlice (pySlice c (s + MARKER.length) e)
        (4 + flen + 4) (4 + flen + 4 + dlen)).length < dlen) :
    get_hidden_file_info true c
      = some (pySlice (pySlice c (s + MARKER.length) e) 4 (4 + flen), dlen) ∧
    extract_body true c existing = .error .dataCorruption ∧
    extract_file true c existing = none := by
  have hne : (pySlice (pySlice c (s + MARKER.length) e)
      (4 + flen + 4) (4 + flen + 4 + dlen)).length ≠ dlen := Nat.ne_of_lt hshort
  refine ⟨?_, ?_, ?_⟩
  · simp [get_hidden_file_info, info_body, validate_pdf, hhdr, hS, hE, hf, hutf, hdl]
  · simp [extract_body, validate_pdf, hhdr, hS, hE, hf, hutf, hdl, hne]
  · simp [extract_file, extract_body, validate_pdf, hhdr, hS, hE, hf, hutf, hdl, hne]

/-- Witness for C10: a carrier whose package declares 9 data bytes while only
the 5 bytes of `hello` sit before the end marker. -/
theorem C10_describe_no_integrity_witness :
    get_hidden_file_info true
        ([37, 80, 68, 70, 45] ++ MARKER ++ [5, 0, 0, 0] ++ [115, 46, 116, 120, 116]
          ++ [9, 0, 0, 0] ++ [104, 101, 108, 108, 111] ++ MARKER_END)
      = some (pySlice (pySlice ([37, 80, 68, 70, 45] ++ MARKER ++ [5, 0, 0, 0]
          ++ [115, 46, 116, 120, 116] ++ [9, 0, 0, 0] ++ [104, 101, 108, 108, 111]
          ++ MARKER_END) (5 + MARKER.length) 44) 4 (4 + 5), 9) ∧
    extract_body true ([37, 80, 68, 70, 45] ++ MARKER ++ [5, 0, 0, 0]
        ++ [115, 46, 116, 120, 116] ++ [9, 0, 0, 0] ++ [104, 101, 108, 108, 111]
        ++ MARKER_END) [] = .error .dataCorruption ∧
    extract_file true ([37, 80, 68, 70, 45] ++ MARKER ++ [5, 0, 0, 0]
        ++ [115, 46, 116, 120, 116] ++ [9, 0, 0, 0] ++ [104, 101, 108, 108, 111]
        ++ MARKER_END) [] = none :=
  C10_describe_no_integrity
    ([37, 80, 68, 70, 45] ++ MARKER ++ [5, 0, 0, 0] ++ [115, 46, 116, 120, 116]
      ++ [9, 0, 0, 0] ++ [104, 101, 108, 108, 111] ++ MARKER_END) [] 5 44 5 9
    (by decide) (by decide) (by decide) (by decide) (by decide) (by decide)
    (by decide)

/-- Counterexample to C10 as frozen: the carrier whose package declares
`filename_length = 2` with the invalid-UTF-8 name bytes `FF FF` and
`data_length = 9` while only 2 data bytes precede the end marker.  The
declared length exceeds the available bytes, yet describe returns `None`
rather than the name/declared-length pair, and extract fails with
UnicodeDecodeError (raised by the name decode before the length check is
reached), not DataCorruption. -/
theorem C10_counterexample :
    unpack4 (pySlice (pySlice ([37, 80, 68, 70, 45] ++ MARKER ++ [2, 0, 0, 0]
        ++ [255, 255] ++ [9, 0, 0, 0] ++ [104, 105] ++ MARKER_END)
        (5 + MARKER.length) 38) 0 4) = .ok 2 ∧
    unpack4 (pySlice (pySlice ([37, 80, 68, 70, 45] ++ MARKER ++ [2, 0, 0, 0]
        ++ [255, 255] ++ [9, 0, 0, 0] ++ [104, 105] ++ MARKER_END)
        (5 + MARKER.length) 38) (4 + 2) (4 + 2 + 4)) = .ok 9 ∧
    (pySlice (pySlice ([37, 80, 68, 70, 45] ++ MARKER ++ [2, 0, 0, 0]
        ++ [255, 255] ++ [9, 0, 0, 0] ++ [104, 105] ++ MARKER_END)
        (5 + MARKER.length) 38) (4 + 2 + 4) (4 + 2 + 4 + 9)).length < 9 ∧
    get_hidden_file_info true ([37, 80, 68, 70, 45] ++ MARKER ++ [2, 0, 0, 0]
        ++ [255, 255] ++ [9, 0, 0, 0] ++ [104, 105] ++ MARKER_END) = none ∧
    extract_body true ([37, 80, 68, 70, 45] ++ MARKER ++ [2, 0, 0, 0]
        ++ [255, 255] ++ [9, 0, 0, 0] ++ [104, 105] ++ MARKER_END) []
      = .error PyErr.unicodeDecodeError := by
  refine ⟨by decide, by decide, by decide, by decide, by decide⟩

end PDFStego
